import Mathlib

/-!
Verification development for the bottom-sheet component in `src/index.tsx`.

The component is a single-threaded, event-driven UI state machine.  We embed
it shallowly: every gesture / lifecycle handler of the source becomes a pure
Lean function from its inputs (configuration props, gesture delta, cached
native tag, current state) to the list of channel effects it performs, in the
order the source performs them.  JavaScript numbers are modelled by `ℚ`
(the claims involve only exact arithmetic: thresholds, subtraction,
division by the resolved height).

The height-resolution utilities (`convertHeight`, `normalizeHeight` from
`src/utils/`) are imported by `src/index.tsx` but their files are not part of
the sources; they are modelled from the specification where needed and this
is flagged in their doc comments.
-/

/-- Supported animation types (`ANIMATIONS` enum in `src/index.tsx`). -/
inductive ANIMATIONS
  | slide
  | spring
  | fade
  deriving DecidableEq, Repr

/-- The four animated scalar channels owned by the component:
`_animatedContainerHeight`, `_animatedHeight` (content height),
`_animatedTranslateY`, `_animatedBackdropMaskOpacity`. -/
inductive Channel
  | containerHeight
  | contentHeight
  | translateY
  | backdropOpacity
  deriving DecidableEq, BEq, Repr

/-- Easing selection recorded on a timing animation.  `unspecified` stands
for the platform default (no `easing` key passed), the other two are the
`_slideEasingFn` / `_springEasingFn` curves of the source; which curve is
attached is all the claims depend on, not its pointwise values. -/
inductive Easing
  | unspecified
  | slideEasing
  | springEasing
  deriving DecidableEq, Repr

/-- One observable side effect performed by a handler, in source order:
starting a timing transition on a channel (`Animated.timing(...).start()`),
writing a channel immediately (`setValue`), or the keyboard bookkeeping done
by `closeBottomSheet`. -/
inductive Effect
  | startTiming (ch : Channel) (toValue : ℚ) (duration : ℚ) (easing : Easing)
  | setValue (ch : Channel) (toValue : ℚ)
  | removeKeyboardListeners
  | dismissKeyboard
  deriving DecidableEq, Repr

/-- The channel an effect writes or animates, if any. -/
def Effect.channelOf : Effect → Option Channel
  | .startTiming ch _ _ _ => some ch
  | .setValue ch _ => some ch
  | .removeKeyboardListeners => none
  | .dismissKeyboard => none

/-- Boolean test: does this effect write or animate channel `ch`? -/
def Effect.touches (e : Effect) (ch : Channel) : Bool :=
  e.channelOf == some ch

/-- `Animators.animateContainerHeight`: 50ms timing on the container height
channel, no explicit easing. -/
def animateContainerHeight (toValue : ℚ) : Effect :=
  .startTiming .containerHeight toValue 50 .unspecified

/-- `Animators.animateBackdropMaskOpacity`: 200ms timing on the backdrop
opacity channel, no explicit easing. -/
def animateBackdropMaskOpacity (toValue : ℚ) : Effect :=
  .startTiming .backdropOpacity toValue 200 .unspecified

/-- JavaScript `duration || 500`: an absent or zero (falsy) duration falls
back to 500. -/
def jsOrDefaultDuration : Option ℚ → ℚ
  | none => 500
  | some d => if d = 0 then 500 else d

/-- `Animators.animateHeight`: timing on the content height channel;
spring adds 100ms on top of the base duration; slide selects the
exponential ease-out curve, every other type the damped spring curve. -/
def animateHeight (animationType : ANIMATIONS) (toValue : ℚ)
    (duration : Option ℚ) : Effect :=
  .startTiming .contentHeight toValue
    (if animationType = ANIMATIONS.spring then jsOrDefaultDuration duration + 100
     else jsOrDefaultDuration duration)
    (if animationType = ANIMATIONS.slide then Easing.slideEasing
     else Easing.springEasing)

/-- `Animators.animateTranslateY`: 500ms timing on the translateY channel
with the same easing selection as `animateHeight`. -/
def animateTranslateY (animationType : ANIMATIONS) (toValue : ℚ) : Effect :=
  .startTiming .translateY toValue 500
    (if animationType = ANIMATIONS.slide then Easing.slideEasing
     else Easing.springEasing)

/-- Result of a `closeBottomSheet()` call: the effects performed
synchronously before it returns, the callback attached to the backdrop fade
(`.start(anim => ...)`, parameterised by `anim.finished`), and the
`sheetOpen` state it sets.  Source lines 314-332. -/
structure CloseCallResult where
  immediate : List Effect
  onBackdropFadeEnd : Bool → List Effect
  sheetOpenAfter : Bool

/-- `closeBottomSheet` from `src/index.tsx`: starts the backdrop fade to 0
whose completion callback, only when the animation reports `finished`,
collapses the body (fade: container transition to 0 then content height set
to 0; otherwise content and container transitions to 0); synchronously it
flips `sheetOpen` to false, removes keyboard listeners and dismisses the
keyboard. -/
def closeBottomSheet (animationType : ANIMATIONS) : CloseCallResult where
  immediate :=
    [animateBackdropMaskOpacity 0,
     Effect.removeKeyboardListeners,
     Effect.dismissKeyboard]
  onBackdropFadeEnd := fun finished =>
    if finished then
      if animationType = ANIMATIONS.fade then
        [animateContainerHeight 0, Effect.setValue .contentHeight 0]
      else
        [animateHeight animationType 0 none, animateContainerHeight 0]
    else []
  sheetOpenAfter := false

/-- Result of an `openBottomSheet()` call: effects in source order and the
`sheetOpen` state it sets.  Source lines 297-312. -/
structure OpenCallResult where
  effects : List Effect
  sheetOpenAfter : Bool

/-- `openBottomSheet` from `src/index.tsx`: starts the container height
transition toward `convertedHeight` when the backdrop is hidden, else toward
the full `containerHeight`; under fade it sets the content height instantly
and fades the backdrop in, otherwise it animates backdrop and content height;
finally it flips `sheetOpen` to true. -/
def openBottomSheet (animationType : ANIMATIONS) (hideBackdrop : Bool)
    (convertedHeight containerHeight : ℚ) : OpenCallResult where
  effects :=
    animateContainerHeight (if hideBackdrop then convertedHeight else containerHeight) ::
    (if animationType = ANIMATIONS.fade then
      [Effect.setValue .contentHeight convertedHeight,
       animateBackdropMaskOpacity 1]
    else
      [animateBackdropMaskOpacity 1,
       animateHeight animationType convertedHeight none])
  sheetOpenAfter := true

/-- `onPanResponderMove` (source lines 239-247): a positive downward delta
`dy` immediately sets the backdrop opacity to `1 - dy / convertedHeight`
(unclamped) and, unless the animation type is fade, immediately sets the
content height to `convertedHeight - dy`; any other delta does nothing. -/
def onPanResponderMove (animationType : ANIMATIONS)
    (convertedHeight dy : ℚ) : List Effect :=
  if 0 < dy then
    Effect.setValue .backdropOpacity (1 - dy / convertedHeight) ::
    (if animationType ≠ ANIMATIONS.fade then
      [Effect.setValue .contentHeight (convertedHeight - dy)]
    else [])
  else []

/-- Outcome of a gesture release: either the full close sequence is
triggered (`closeBottomSheet()` is called) or the sheet snaps back with the
listed effects. -/
inductive ReleaseOutcome
  | closeSheet (result : CloseCallResult)
  | snapBack (effects : List Effect)

/-- `onPanResponderRelease` (source lines 249-257): a final delta of at
least a third of the resolved height, with `closeOnDragDown` enabled,
triggers `closeBottomSheet()`; otherwise the backdrop opacity is restored to
1 immediately and, unless the animation type is fade, the content height is
animated back to `convertedHeight`. -/
def onPanResponderRelease (animationType : ANIMATIONS) (convertedHeight : ℚ)
    (closeOnDragDown : Bool) (dy : ℚ) : ReleaseOutcome :=
  if decide (convertedHeight / 3 ≤ dy) && closeOnDragDown then
    .closeSheet (closeBottomSheet animationType)
  else
    .snapBack
      (Effect.setValue .backdropOpacity 1 ::
       (if animationType ≠ ANIMATIONS.fade then
         [animateHeight animationType convertedHeight none]
       else []))

/-- The view a pan responder is created for in `getPanHandlersFor`. -/
inductive PanView
  | handlebar
  | contentwrapper
  deriving DecidableEq

/-- JavaScript falsiness of a `number | undefined` value (`undefined` and
`0` are falsy), as tested by `!cachedContentWrapperNativeTag.current`. -/
def jsFalsyOptNat : Option ℕ → Bool
  | none => true
  | some n => n == 0

/-- `extractNativeTag` (source lines 285-292): caches the layout event
target tag only while the cache is still falsy. -/
def extractNativeTag (cached : Option ℕ) (tag : Option ℕ) : Option ℕ :=
  if jsFalsyOptNat cached then tag else cached

/-- `onMoveShouldSetPanResponder` (source lines 223-238): the handle bar
always captures; the content wrapper captures exactly when the cached native
tag loosely equals the numeric native tag of the move event target (a real
native event target always carries a numeric tag, so an uncaptured cache —
JavaScript `undefined` — never matches). -/
def onMoveShouldSetPanResponder (view : PanView) (cached : Option ℕ)
    (targetTag : ℕ) : Bool :=
  match view with
  | .handlebar => true
  | .contentwrapper => cached == some targetTag

/-- A move event on the content wrapper, end to end: `getPanHandlersFor`
returns no handlers at all when body panning is disabled; otherwise
`onPanResponderMove` runs only if `onMoveShouldSetPanResponder` granted the
responder to the sheet for this gesture. -/
def contentMoveEffects (disableBodyPanning : Bool)
    (animationType : ANIMATIONS) (cached : Option ℕ) (targetTag : ℕ)
    (convertedHeight dy : ℚ) : List Effect :=
  if disableBodyPanning then []
  else if onMoveShouldSetPanResponder .contentwrapper cached targetTag then
    onPanResponderMove animationType convertedHeight dy
  else []

/-- The declarative height specification of the `height` prop: a pixel
number, a percentage string, or the auto sentinel. -/
inductive HeightSpec
  | pixels (n : ℚ)
  | percent (p : ℚ)
  | auto
  deriving DecidableEq, Repr

/-- Clamp `v` to the interval `[lo, hi]`. -/
def clampQ (lo hi v : ℚ) : ℚ :=
  max lo (min v hi)

/-- Modelled from the spec: the fixed chrome allowance subtracted from an
auto height while the handle bar is visible.  `src/utils/convertHeight` and
its constants are not among the sources; the specification only fixes that
the allowance is a positive tunable constant. -/
def CHROME_ALLOWANCE : ℚ := 20

/-- Modelled from the spec: `convertHeight(height, containerHeight,
hideHandleBar)` from `src/utils/convertHeight`, which is not among the
sources.  Per the HeightResolver contract: a pixel height is clamped to
`[0, containerHeight]`; a percentage is converted relative to
`containerHeight` and clamped to the same interval; auto yields
`containerHeight` minus the fixed chrome allowance when the handle bar is
visible, else `containerHeight` unchanged. -/
def convertHeight (height : HeightSpec) (containerHeight : ℚ)
    (hideHandleBar : Bool) : ℚ :=
  match height with
  | .pixels n => clampQ 0 containerHeight n
  | .percent p => clampQ 0 containerHeight (containerHeight * p / 100)
  | .auto =>
      if hideHandleBar then containerHeight
      else containerHeight - CHROME_ALLOWANCE

/-- The `containerHeight` prop value when present: a number or a percentage
string (the string case is resolved later through a layout pass). -/
inductive ContainerHeightProp
  | num (n : ℚ)
  | str (s : String)

/-- The two pieces of state written by the layout effect of source lines
347-368: the `containerHeight` React state and the current value of the
`_animatedContainerHeight` channel. -/
structure EffectState where
  containerHeight : ℚ
  animatedContainerHeight : ℚ

/-- The initial state of a freshly mounted sheet: `containerHeight` starts
as the mount-time window height (`useState(SCREEN_HEIGHT)`), the animated
container height starts at 0 (`useAnimatedValue(0)`). -/
def initialEffectState (screenHeight : ℚ) : EffectState where
  containerHeight := screenHeight
  animatedContainerHeight := 0

/-- One run of the `useLayoutEffect` body (source lines 347-368): when
`hideBackdrop` is set it returns immediately; a numeric `containerHeight`
prop is normalized into state (and, while the sheet is open, written raw to
the animated channel); an absent prop resyncs state to the window height
when they differ; a string prop is left to the layout pass.
`normalizeHeight` lives in `src/utils/normalizeHeight`, which is not among
the sources, so it is passed in as a parameter — no claim settled here
depends on it. -/
def useLayoutEffectStep (normalizeHeight : ℚ → ℚ) (hideBackdrop : Bool)
    (passedContainerHeight : Option ContainerHeightProp)
    (screenHeight : ℚ) (sheetOpen : Bool) (s : EffectState) : EffectState :=
  if hideBackdrop then s
  else
    match passedContainerHeight with
    | some (.num n) =>
        { containerHeight := normalizeHeight n
          animatedContainerHeight :=
            if sheetOpen then n else s.animatedContainerHeight }
    | some (.str _) => s
    | none =>
        if s.containerHeight ≠ screenHeight then
          { containerHeight := screenHeight
            animatedContainerHeight :=
              if sheetOpen then screenHeight else s.animatedContainerHeight }
        else s

/-- A sequence of layout-effect triggers (prop value, window height,
`sheetOpen` flag at that moment) applied in order. -/
def layoutEffectRun (normalizeHeight : ℚ → ℚ) (hideBackdrop : Bool)
    (updates : List (Option ContainerHeightProp × ℚ × Bool))
    (s : EffectState) : EffectState :=
  match updates with
  | [] => s
  | (p, sh, so) :: rest =>
      layoutEffectRun normalizeHeight hideBackdrop rest
        (useLayoutEffectStep normalizeHeight hideBackdrop p sh so s)

/-- An imperative-handle call on the sheet ref. -/
inductive SheetCall
  | openCall
  | closeCall
  deriving DecidableEq

/-- The `sheetOpen` state after one imperative call.  Animation effects and
completion callbacks never write `sheetOpen` (the `Effect` type has no such
operation), so the flag returned here is the synchronous, authoritative
value. -/
def applySheetCall (animationType : ANIMATIONS) (hideBackdrop : Bool)
    (convertedHeight containerHeight : ℚ) :
    SheetCall → Bool → Bool
  | .openCall, _ =>
      (openBottomSheet animationType hideBackdrop convertedHeight
        containerHeight).sheetOpenAfter
  | .closeCall, _ => (closeBottomSheet animationType).sheetOpenAfter

/-- The `sheetOpen` state after a sequence of imperative calls. -/
def runCalls (animationType : ANIMATIONS) (hideBackdrop : Bool)
    (convertedHeight containerHeight : ℚ) :
    List SheetCall → Bool → Bool
  | [], b => b
  | call :: rest, b =>
      runCalls animationType hideBackdrop convertedHeight containerHeight rest
        (applySheetCall animationType hideBackdrop convertedHeight
          containerHeight call b)

/-- The targets of container-height timing transitions among a list of
effects, in order. -/
def containerHeightTargets (es : List Effect) : List ℚ :=
  es.filterMap fun e =>
    match e with
    | .startTiming Channel.containerHeight t _ _ => some t
    | _ => none

/-- C1: for every close() call, no contentHeight or containerHeight effect
is among the effects performed before the backdropOpacity-to-zero transition
reports completion — the synchronous part of `closeBottomSheet` touches
neither channel — and when the backdrop fade ends without `finished` (it was
superseded), the completion callback performs nothing, so the body-collapse
step never runs. -/
theorem close_two_phase (a : ANIMATIONS) :
    ((closeBottomSheet a).immediate.all fun e =>
      !(e.touches Channel.contentHeight) &&
      !(e.touches Channel.containerHeight)) = true ∧
    (closeBottomSheet a).onBackdropFadeEnd false = [] :=
  ⟨rfl, rfl⟩

/-- C2: for every call sequence ending in close(), the `sheetOpen` flag is
false synchronously when close() returns, for any animation type,
configuration and heights; in-flight animations cannot interfere because no
`Effect` writes `sheetOpen`. -/
theorem close_sync_closed (a : ANIMATIONS) (hb : Bool) (ch cont : ℚ)
    (calls : List SheetCall) (b : Bool) :
    runCalls a hb ch cont (calls ++ [SheetCall.closeCall]) b = false := by
  induction calls generalizing b with
  | nil => rfl
  | cons c rest ih => exact ih _

/-- C6: under the fade animation type, every effect of every drag-move event
is on the backdropOpacity channel; contentHeight is never changed. -/
theorem fade_drag_touches_only_backdrop (h dy : ℚ) :
    ((onPanResponderMove ANIMATIONS.fade h dy).all fun e =>
      e.touches Channel.backdropOpacity) = true := by
  unfold onPanResponderMove
  split
  · rfl
  · rfl

/-- C10: with `hideBackdrop` set, any sequence of layout-effect triggers
(numeric `containerHeight` prop values, window-height changes, any
`sheetOpen` flag) leaves the state untouched: the stored `containerHeight`
keeps its initial window-height value and the animated container channel is
never written by the effect. -/
theorem hideBackdrop_skips_layout_effect (normalizeHeight : ℚ → ℚ)
    (updates : List (Option ContainerHeightProp × ℚ × Bool))
    (s : EffectState) :
    layoutEffectRun normalizeHeight true updates s = s := by
  induction updates generalizing s with
  | nil => rfl
  | cons u rest ih =>
    obtain ⟨p, sh, so⟩ := u
    exact ih _

/-- C8: for every open() call, the containerHeight transition target is
`convertedHeight` (the resolved height) when `hideBackdrop` is set and the
full outer `containerHeight` otherwise; in particular with
`hideBackdrop` set and `height = 300` pixels inside an 800 container the
target is 300. -/
theorem open_container_target (a : ANIMATIONS) (ch cont : ℚ) :
    containerHeightTargets (openBottomSheet a true ch cont).effects = [ch] ∧
    containerHeightTargets (openBottomSheet a false ch cont).effects = [cont] ∧
    containerHeightTargets
      (openBottomSheet a true
        (convertHeight (HeightSpec.pixels 300) 800 false) 800).effects
      = [(300 : ℚ)] := by
  refine ⟨?_, ?_, ?_⟩ <;> cases a <;>
    simp [openBottomSheet, containerHeightTargets, animateContainerHeight,
      animateBackdropMaskOpacity, animateHeight, convertHeight, clampQ] <;>
    norm_num [min_def, max_def]

/-- C9: for every container height, resolving an auto height with the
handle bar visible yields strictly less than resolving it with the handle
bar hidden, because the positive chrome allowance is subtracted exactly in
the visible case. -/
theorem auto_height_handlebar_lt (c : ℚ) :
    convertHeight HeightSpec.auto c false <
      convertHeight HeightSpec.auto c true := by
  show c - CHROME_ALLOWANCE < c
  have h : (0 : ℚ) < CHROME_ALLOWANCE := by norm_num [CHROME_ALLOWANCE]
  linarith

/-- C3 counterexample: at container height 0 (which is ≥ 0) an auto height
with the handle bar visible resolves to the negative value
`-CHROME_ALLOWANCE`, outside `[0, containerHeight]`. -/
theorem convertHeight_range_counterexample :
    ¬ (0 ≤ convertHeight HeightSpec.auto 0 false ∧
       convertHeight HeightSpec.auto 0 false ≤ 0) := by
  norm_num [convertHeight, CHROME_ALLOWANCE]

/-- C3 amended: for every pixel or percentage height specification and
container height ≥ 0 the resolved height lies in `[0, containerHeight]`;
for the auto specification the same holds provided the handle bar is hidden
or the container height is at least the chrome allowance. -/
theorem convertHeight_range (height : HeightSpec) (c : ℚ)
    (hideHandleBar : Bool) (hc : 0 ≤ c)
    (hauto : height = HeightSpec.auto → hideHandleBar = false →
      CHROME_ALLOWANCE ≤ c) :
    0 ≤ convertHeight height c hideHandleBar ∧
    convertHeight height c hideHandleBar ≤ c := by
  cases height with
  | pixels n =>
      exact ⟨le_max_left 0 _, max_le hc (min_le_right n c)⟩
  | percent p =>
      exact ⟨le_max_left 0 _, max_le hc (min_le_right _ c)⟩
  | auto =>
      cases hideHandleBar with
      | true => exact ⟨hc, le_refl c⟩
      | false =>
          have h1 : CHROME_ALLOWANCE ≤ c := hauto rfl rfl
          have h2 : (0 : ℚ) ≤ CHROME_ALLOWANCE := by norm_num [CHROME_ALLOWANCE]
          constructor
          · show 0 ≤ c - CHROME_ALLOWANCE
            linarith
          · show c - CHROME_ALLOWANCE ≤ c
            linarith

/-- Witness for C3 amended at the auto specification, container height 100,
handle bar visible. -/
theorem convertHeight_range_w :
    0 ≤ convertHeight HeightSpec.auto 100 false ∧
    convertHeight HeightSpec.auto 100 false ≤ 100 :=
  convertHeight_range HeightSpec.auto 100 false (by norm_num)
    (fun _ _ => by norm_num [CHROME_ALLOWANCE])

/-- C4: a release whose downward delta reaches a third of the resolved
height, with closeOnDragDown enabled, triggers the full close sequence
(the threshold itself included); below the threshold, or with
closeOnDragDown disabled, the sheet does not close — the backdrop opacity
is set back to 1 immediately and, for non-fade types, the content height is
animated back to the resolved height. -/
theorem release_threshold (a : ANIMATIONS) (h dy : ℚ) (c : Bool) :
    (h / 3 ≤ dy → c = true →
      onPanResponderRelease a h c dy =
        ReleaseOutcome.closeSheet (closeBottomSheet a)) ∧
    (dy < h / 3 ∨ c = false →
      onPanResponderRelease a h c dy =
        ReleaseOutcome.snapBack
          (Effect.setValue Channel.backdropOpacity 1 ::
           (if a ≠ ANIMATIONS.fade then [animateHeight a h none] else []))) := by
  constructor
  · intro h1 h2
    have hcond : (decide (h / 3 ≤ dy) && c) = true := by
      rw [h2, decide_eq_true h1]
      rfl
    unfold onPanResponderRelease
    rw [if_pos hcond]
  · intro h1
    have hcond : ¬ ((decide (h / 3 ≤ dy) && c) = true) := by
      rcases h1 with h1 | h1
      · rw [decide_eq_false (not_le.mpr h1)]
        simp
      · rw [h1]
        simp
    unfold onPanResponderRelease
    rw [if_neg hcond]

/-- Witness for C4: with resolved height 300 and closeOnDragDown enabled, a
delta of exactly 100 (the threshold 300/3) closes, while 99 snaps back. -/
theorem release_threshold_w :
    onPanResponderRelease ANIMATIONS.slide 300 true 100 =
      ReleaseOutcome.closeSheet (closeBottomSheet ANIMATIONS.slide) ∧
    onPanResponderRelease ANIMATIONS.slide 300 true 99 =
      ReleaseOutcome.snapBack
        [Effect.setValue Channel.backdropOpacity 1,
         animateHeight ANIMATIONS.slide 300 none] := by
  constructor
  · exact (release_threshold ANIMATIONS.slide 300 100 true).1 (by norm_num) rfl
  · have h := (release_threshold ANIMATIONS.slide 300 99 true).2
      (Or.inl (by norm_num))
    simpa using h

/-- C5: a drag-move with positive downward delta immediately sets the
backdrop opacity to `1 - dy / h` (unclamped) and, for non-fade types,
immediately sets the content height to `h - dy`; a move with delta ≤ 0
performs no effect on any channel. -/
theorem move_feedback (a : ANIMATIONS) (h dy : ℚ) :
    (0 < dy →
      onPanResponderMove a h dy =
        Effect.setValue Channel.backdropOpacity (1 - dy / h) ::
        (if a ≠ ANIMATIONS.fade then
          [Effect.setValue Channel.contentHeight (h - dy)]
        else [])) ∧
    (dy ≤ 0 → onPanResponderMove a h dy = []) := by
  constructor
  · intro hdy
    unfold onPanResponderMove
    rw [if_pos hdy]
  · intro hdy
    unfold onPanResponderMove
    rw [if_neg (not_lt.mpr hdy)]

/-- Witness for C5: a slide-type drag of 150 on a 400-high sheet writes the
two channels, and a zero delta writes nothing. -/
theorem move_feedback_w :
    onPanResponderMove ANIMATIONS.slide 400 150 =
      [Effect.setValue Channel.backdropOpacity (1 - 150 / 400),
       Effect.setValue Channel.contentHeight (400 - 150)] ∧
    onPanResponderMove ANIMATIONS.slide 400 0 = [] := by
  constructor
  · have h := (move_feedback ANIMATIONS.slide 400 150).1 (by norm_num)
    simpa using h
  · exact (move_feedback ANIMATIONS.slide 400 0).2 (le_refl 0)

/-- C7: a content-surface move event whose target tag differs from the
cached surface identity — including every event arriving while nothing has
been captured yet (`cached = none`) — is not captured, and the end-to-end
move pipeline performs no effect on any channel, for every body-panning
setting, animation type and geometry. -/
theorem content_capture_identity (cached : Option ℕ) (t : ℕ)
    (hne : cached ≠ some t) :
    onMoveShouldSetPanResponder PanView.contentwrapper cached t = false ∧
    ∀ (dbp : Bool) (a : ANIMATIONS) (h dy : ℚ),
      contentMoveEffects dbp a cached t h dy = [] := by
  have hb : (cached == some t) = false := beq_eq_false_iff_ne.mpr hne
  constructor
  · exact hb
  · intro dbp a h dy
    simp [contentMoveEffects, onMoveShouldSetPanResponder, hb]

/-- Witness for C7: before any identity has been captured, a move event
targeting tag 1 is not captured and performs nothing. -/
theorem content_capture_identity_w :
    onMoveShouldSetPanResponder PanView.contentwrapper none 1 = false ∧
    contentMoveEffects false ANIMATIONS.slide none 1 400 150 = [] := by
  have hthm := content_capture_identity none 1 (by decide)
  exact ⟨hthm.1, hthm.2 false ANIMATIONS.slide 400 150⟩
